import Mathlib

/-!
Verification of the cricket analytics engine: pitch physics, tactical
scoring, delivery-ledger normalization and matchup/phase aggregation.
All numeric quantities that the program handles as Python floats are
modelled as rationals (ℚ); skill attributes and scores are integers.
-/

/-- Geophysical attributes of a venue, one row of the venue database. -/
structure Venue where
  soil : String
  clay : ℚ
  altitude : ℚ
  avg_temp : ℚ
  drainage : String
deriving DecidableEq, Repr

/-- The static venue database from the source, as (name, attributes) pairs. -/
def VENUES_DATABASE : List (String × Venue) :=
  [("Wankhede, Mumbai", ⟨"Red", 0.40, 10, 30, "High"⟩),
   ("Chepauk, Chennai", ⟨"Black", 0.70, 5, 33, "Medium"⟩),
   ("Perth (Optus), AUS", ⟨"Clay-Heavy", 0.80, 20, 28, "Extreme"⟩),
   ("Lord's, London", ⟨"Loam", 0.30, 35, 22, "Low"⟩)]

/-- The physics coefficients returned by the pitch model. -/
structure PitchPhysics where
  swing : ℚ
  spin : ℚ
  dew : ℚ
deriving DecidableEq, Repr

/-- Embedding of CricketAI.calculate_pitch_physics.  The ambient
wall-clock hour read by the source via datetime.now() is passed
explicitly as `hour`. -/
def calculate_pitch_physics (v : Venue) (temp humidity clouds : ℚ)
    (hour : ℕ) : PitchPhysics :=
  let spin_index : ℚ := 0.4 + (if v.soil = "Black" ∧ temp > 31 then 0.4 else 0)
  let base_swing : ℚ := (humidity / 100) * (clouds / 100)
  let altitude_penalty : ℚ := v.altitude / 2000
  let swing_prob : ℚ := max 0 (base_swing - altitude_penalty)
  let dew_factor : ℚ := if (hour ≥ 18 ∨ hour ≤ 4) ∧ humidity > 70 then 0.85 else 0.1
  ⟨swing_prob, spin_index, dew_factor⟩

/-- The choke-rule alert string appended by the scorer. -/
def chokeAlertMsg : String :=
  "🚩 **CHOKE ALERT:** High failure probability under dew/pressure."

/-- The spin-trap alert string appended by the scorer. -/
def spinTrapMsg : String :=
  "🌀 **SPIN TRAP:** Batter likely to be suffocated by spin on this surface."

/-- The accelerator alert string appended by the scorer. -/
def acceleratorMsg : String :=
  "🚀 **ACCELERATOR:** Elite ability to shift gears in death overs."

/-- Embedding of CricketAI.player_dna_eval: three sequential rules over a
(score, alerts) state starting at (80, []), then a clamp of the score to
[0, 100]. -/
def player_dna_eval (role : String) (pressure spin_skill accel_rating : ℤ)
    (physics : PitchPhysics) : ℤ × List String :=
  let st0 : ℤ × List String := (80, [])
  let st1 := if pressure < 45 ∧ physics.dew > 0.7 then
      (st0.1 - 25, st0.2 ++ [chokeAlertMsg]) else st0
  let st2 := if physics.spin > 0.7 ∧ spin_skill < 50 then
      (st1.1 - 20, st1.2 ++ [spinTrapMsg]) else st1
  let st3 := if accel_rating > 80 then
      (st2.1 + 15, st2.2 ++ [acceleratorMsg]) else st2
  (max 0 (min 100 st3.1), st3.2)

/-- One row of the delivery ledger, with the columns the analytics read:
striker, bowler, runs_off_bat, wicket_type (null = no dismissal) and the
numeric ball position used for phase binning. -/
structure Delivery where
  striker : String
  bowler : String
  runs_off_bat : ℕ
  wicket_type : Option String
  ball : ℚ
deriving DecidableEq, Repr

/-- The head-to-head statistics dictionary built by analyze_matchup. -/
structure MatchupStats where
  balls_faced : ℕ
  runs_scored : ℕ
  dismissals : ℕ
  dot_balls : ℕ
  boundaries : ℕ
  strike_rate : ℚ
deriving DecidableEq, Repr

/-- The status string returned with a successful head-to-head analysis. -/
def h2hFoundMsg : String := "H2H Data Found"

/-- The status string returned when no head-to-head rows exist. -/
def h2hNotFoundMsg : String :=
  "No historical H2H data found. Switching to Skill-Type analysis..."

/-- Embedding of analyze_matchup: filter the ledger to the exact
(striker, bowler) pair; on an empty result return no stats and the
not-found status, otherwise the aggregate statistics. -/
def analyze_matchup (df : List Delivery) (batsman bowler : String) :
    Option MatchupStats × String :=
  let h2h := df.filter fun d => d.striker == batsman && d.bowler == bowler
  if h2h.isEmpty then
    (none, h2hNotFoundMsg)
  else
    let balls := h2h.length
    let runs := (h2h.map Delivery.runs_off_bat).sum
    let outs := (h2h.filter fun d => d.wicket_type.isSome).length
    let dots := (h2h.filter fun d => d.runs_off_bat == 0).length
    let bdry := (h2h.filter fun d => d.runs_off_bat == 4 || d.runs_off_bat == 6).length
    (some ⟨balls, runs, outs, dots, bdry, ((runs : ℚ) / (balls : ℚ)) * 100⟩,
     h2hFoundMsg)

/-- The label of the first phase bucket. -/
def powerplayLabel : String := "Powerplay"

/-- The label of the second phase bucket. -/
def middleLabel : String := "Middle"

/-- The label of the third phase bucket. -/
def deathLabel : String := "Death"

/-- Embedding of the phase binning pd.cut(ball, bins=[0, 6, 15, 20],
labels=[Powerplay, Middle, Death]): left-open right-closed intervals,
values outside (0, 20] get no label. -/
def phase_of (b : ℚ) : Option String :=
  if 0 < b ∧ b ≤ 6 then some powerplayLabel
  else if 6 < b ∧ b ≤ 15 then some middleLabel
  else if 15 < b ∧ b ≤ 20 then some deathLabel
  else none

/-- Embedding of the acceleration-profile aggregation: the batter's rows
are labelled with phase_of and runs_off_bat is summed per phase label;
groupby with observed=False lists all three labels even when empty. -/
def phaseProfile (df : List Delivery) (batter : String) :
    List (String × ℕ) :=
  let b_stats := df.filter fun d => d.striker == batter
  let runsIn : String → ℕ := fun label =>
    ((b_stats.filter fun d => phase_of d.ball == some label).map
      Delivery.runs_off_bat).sum
  [(powerplayLabel, runsIn powerplayLabel), (middleLabel, runsIn middleLabel),
   (deathLabel, runsIn deathLabel)]

/-- A source file once parsed: its column names and its delivery rows. -/
structure ParsedTable where
  columns : List String
  rows : List Delivery
deriving DecidableEq, Repr

/-- A raw source file: its name in the archive listing and the result of
attempting to parse it as tabular data (none = read_csv raised). -/
structure RawFile where
  name : String
  parsed : Option ParsedTable
deriving DecidableEq, Repr

/-- Suffix test on strings, modelling Python's str.endswith. -/
def strEndsWith (s t : String) : Bool := t.data.isSuffixOf s.data

/-- Whether a character list occurs contiguously inside another. -/
def listHasInfix (pat : List Char) : List Char → Bool
  | [] => pat.isEmpty
  | c :: tail => pat.isPrefixOf (c :: tail) || listHasInfix pat tail

/-- Substring test on strings, modelling Python's `pat in s`. -/
def strContains (s pat : String) : Bool := listHasInfix pat.data s.data

/-- The suffix identifying tabular source files. -/
def csvSuffix : String := ".csv"

/-- The suffix identifying per-match metadata files. -/
def infoSuffix : String := "_info.csv"

/-- The marker identifying README files. -/
def readmeTag : String := "README"

/-- The column naming the batter on strike. -/
def strikerCol : String := "striker"

/-- The column naming the bowler. -/
def bowlerCol : String := "bowler"

/-- The filename screen of get_cleaned_data: keep .csv files that are not
_info.csv files and whose name does not contain README. -/
def nameOk (n : String) : Bool :=
  strEndsWith n csvSuffix && !(strEndsWith n infoSuffix) && !(strContains n readmeTag)

/-- One iteration of the ingestion loop: keep the file's rows when its
name passes the screen, it parses, and the parsed columns include
striker and bowler; otherwise leave the accumulator unchanged. -/
def ingestStep (acc : List Delivery) (f : RawFile) : List Delivery :=
  if nameOk f.name then
    match f.parsed with
    | some t =>
        if strikerCol ∈ t.columns ∧ bowlerCol ∈ t.columns then
          acc ++ t.rows
        else acc
    | none => acc
  else acc

/-- Embedding of the ingestion loop of get_cleaned_data: fold ingestStep
over the first 150 listed files; every rejected file is skipped and the
loop continues. -/
def get_cleaned_data (files : List RawFile) : List Delivery :=
  (files.take 150).foldl ingestStep []

/-- The acceptance predicate of the ingestion loop, as one test: name
screen passes, the file parses, and the schema has striker and bowler. -/
def acceptFile (f : RawFile) : Bool :=
  nameOk f.name &&
    (match f.parsed with
     | some t => decide (strikerCol ∈ t.columns ∧ bowlerCol ∈ t.columns)
     | none => false)

/-- The rows a file contributes when accepted. -/
def fileRows (f : RawFile) : List Delivery :=
  match f.parsed with
  | some t => t.rows
  | none => []

/-- The name of the worked-example venue. -/
def chepaukName : String := "Chepauk, Chennai"

/-- The worked-example venue's attribute record. -/
def chepauk : Venue := ⟨"Black", 0.70, 5, 33, "Medium"⟩

/-- The worked-example ledger: five deliveries by batter A against
bowler B with runs 1, 4, 0, 6, 0 and no dismissal. -/
def exDf : List Delivery :=
  [⟨"A", "B", 1, none, 1⟩, ⟨"A", "B", 4, none, 2⟩, ⟨"A", "B", 0, none, 3⟩,
   ⟨"A", "B", 6, none, 4⟩, ⟨"A", "B", 0, none, 5⟩]

/-- A ledger exercising the phase buckets: two in-range deliveries (ball
3 and 10) and one out-of-range delivery (ball 25). -/
def exPhaseDf : List Delivery :=
  [⟨"A", "B", 2, none, 3⟩, ⟨"A", "B", 5, none, 10⟩, ⟨"A", "B", 1, none, 25⟩]

/-- A well-formed source file carrying the worked-example ledger. -/
def exGoodFile : RawFile := ⟨"m1.csv", some ⟨[strikerCol, bowlerCol], exDf⟩⟩

/-- A source file whose parsed schema is missing the bowler column. -/
def exBadFile : RawFile :=
  ⟨"m2.csv", some ⟨[strikerCol], [⟨"X", "Y", 2, none, 1⟩]⟩⟩

/-- Whether a ball position lies inside the binning range (0, 20]. -/
def inPhaseRange (d : Delivery) : Bool := decide (0 < d.ball ∧ d.ball ≤ 20)

/-- The one-row ledger refuting claim C4 as stated: the delivery's ball
position is 1/2, outside [1, 20]. -/
def cexDf : List Delivery := [⟨"A", "B", 3, none, 1/2⟩]

lemma powerplay_ne_middle : powerplayLabel ≠ middleLabel := by decide
lemma powerplay_ne_death : powerplayLabel ≠ deathLabel := by decide
lemma middle_ne_death : middleLabel ≠ deathLabel := by decide

/-- Claim C8: for every evaluation hour and humidity, dew_factor equals
0.85 exactly when (hour ≥ 18 or hour ≤ 4) and humidity > 70, equals 0.1
otherwise, and never takes a value outside those two. -/
theorem C8_dew_factor (v : Venue) (temp humidity clouds : ℚ) (hour : ℕ) :
    ((calculate_pitch_physics v temp humidity clouds hour).dew = 0.85 ↔
      ((hour ≥ 18 ∨ hour ≤ 4) ∧ humidity > 70)) ∧
    (¬((hour ≥ 18 ∨ hour ≤ 4) ∧ humidity > 70) →
      (calculate_pitch_physics v temp humidity clouds hour).dew = 0.1) ∧
    ((calculate_pitch_physics v temp humidity clouds hour).dew = 0.1 ∨
      (calculate_pitch_physics v temp humidity clouds hour).dew = 0.85) := by
  simp only [calculate_pitch_physics]
  split_ifs with h
  · exact ⟨⟨fun _ => h, fun _ => rfl⟩, fun hn => absurd h hn, Or.inr rfl⟩
  · exact ⟨⟨fun he => absurd he (by norm_num), fun hh => absurd hh h⟩,
      fun _ => rfl, Or.inl rfl⟩

/-- Witness for C8 at a concrete night-time, high-humidity input. -/
theorem C8_dew_factor_witness :
    (calculate_pitch_physics chepauk 33 80 20 22).dew = 0.85 :=
  (C8_dew_factor chepauk 33 80 20 22).1.mpr ⟨Or.inl (by norm_num), by norm_num⟩

/-- Claim C6: spin_index is 0.8 exactly when the soil is Black and the
temperature exceeds 31, is 0.4 in every other case (in particular for
every non-Black soil), and never takes any other value. -/
theorem C6_spin_index (v : Venue) (temp humidity clouds : ℚ) (hour : ℕ) :
    ((calculate_pitch_physics v temp humidity clouds hour).spin = 0.8 ↔
      (v.soil = ("Black") ∧ temp > 31)) ∧
    (¬(v.soil = ("Black") ∧ temp > 31) →
      (calculate_pitch_physics v temp humidity clouds hour).spin = 0.4) ∧
    (v.soil ≠ ("Black") →
      (calculate_pitch_physics v temp humidity clouds hour).spin = 0.4) ∧
    ((calculate_pitch_physics v temp humidity clouds hour).spin = 0.4 ∨
      (calculate_pitch_physics v temp humidity clouds hour).spin = 0.8) := by
  simp only [calculate_pitch_physics]
  split_ifs with h
  · exact ⟨⟨fun _ => h, fun _ => by norm_num⟩, fun hn => absurd h hn,
      fun hs => absurd h.1 hs, Or.inr (by norm_num)⟩
  · exact ⟨⟨fun he => absurd he (by norm_num), fun hh => absurd hh h⟩,
      fun _ => by norm_num, fun _ => by norm_num, Or.inl (by norm_num)⟩

/-- Witness for C6 at the Black-soil example venue and 33 degrees. -/
theorem C6_spin_index_witness :
    (calculate_pitch_physics chepauk 33 75 20 12).spin = 0.8 :=
  (C6_spin_index chepauk 33 75 20 12).1.mpr ⟨by decide, by norm_num⟩

/-- Claim C10: the role argument has no influence on the tactical
scorer's output: two calls differing only in role return identical score
and alerts. -/
theorem C10_role_has_no_influence (role1 role2 : String)
    (pressure spin_skill accel_rating : ℤ) (physics : PitchPhysics) :
    player_dna_eval role1 pressure spin_skill accel_rating physics =
      player_dna_eval role2 pressure spin_skill accel_rating physics := rfl

/-- Claim C7: swing_probability is max(0, humidity/100 x clouds/100 -
altitude/2000); it is 0 whenever humidity or cloud cover is 0 (given a
non-negative altitude), and the Chepauk example (Black soil, altitude 5,
temperature 33, humidity 75, clouds 20) yields swing 0.1475 and spin 0.8. -/
theorem C7_swing_probability (v : Venue) (hv : 0 ≤ v.altitude)
    (temp humidity clouds : ℚ)
    (hh0 : 0 ≤ humidity) (hh1 : humidity ≤ 100)
    (hc0 : 0 ≤ clouds) (hc1 : clouds ≤ 100) (hour : ℕ) :
    (calculate_pitch_physics v temp humidity clouds hour).swing =
      max 0 ((humidity / 100) * (clouds / 100) - v.altitude / 2000) ∧
    ((humidity = 0 ∨ clouds = 0) →
      (calculate_pitch_physics v temp humidity clouds hour).swing = 0) ∧
    (chepaukName, chepauk) ∈ VENUES_DATABASE ∧
    (calculate_pitch_physics chepauk 33 75 20 12).swing = 0.1475 ∧
    (calculate_pitch_physics chepauk 33 75 20 12).spin = 0.8 := by
  refine ⟨rfl, fun h0 => ?_, ?_, ?_, ?_⟩
  · have halt : (0 : ℚ) ≤ v.altitude / 2000 := by positivity
    have hbase : (humidity / 100) * (clouds / 100) = 0 := by
      rcases h0 with h | h <;> rw [h] <;> ring
    show max 0 ((humidity / 100) * (clouds / 100) - v.altitude / 2000) = 0
    rw [hbase]
    exact max_eq_left (by linarith)
  · simp [VENUES_DATABASE, chepaukName, chepauk]
  · norm_num [calculate_pitch_physics, chepauk]
  · norm_num [calculate_pitch_physics, chepauk]

/-- Witness for C7 at the Chepauk example venue with zero cloud cover. -/
theorem C7_swing_probability_witness :
    (calculate_pitch_physics chepauk 33 75 0 12).swing = 0 :=
  (C7_swing_probability chepauk (by norm_num [chepauk]) 33 75 0
    (by norm_num) (by norm_num) (by norm_num) (by norm_num) 12).2.1
    (Or.inr rfl)

/-- Claim C1: the tactical scorer starts at 80 and applies the three
rules in fixed order, each subtracting or adding its delta and appending
its alert exactly when its predicate holds, clamping the accumulated
score to [0, 100]; and with pressure 30 and dew 0.85 the choke rule
fires, the score after rule 1 standing at 55. -/
theorem C1_tactical_scorer (role : String)
    (pressure spin_skill accel_rating : ℤ) (physics : PitchPhysics)
    (hp0 : 0 ≤ pressure) (hp1 : pressure ≤ 100)
    (hs0 : 0 ≤ spin_skill) (hs1 : spin_skill ≤ 100)
    (ha0 : 0 ≤ accel_rating) (ha1 : accel_rating ≤ 100) :
    player_dna_eval role pressure spin_skill accel_rating physics =
      (max 0 (min 100 (80 +
        (if pressure < 45 ∧ physics.dew > 0.7 then -25 else 0) +
        (if physics.spin > 0.7 ∧ spin_skill < 50 then -20 else 0) +
        (if accel_rating > 80 then 15 else 0))),
       ((if pressure < 45 ∧ physics.dew > 0.7 then [chokeAlertMsg] else []) ++
        (if physics.spin > 0.7 ∧ spin_skill < 50 then [spinTrapMsg] else []) ++
        (if accel_rating > 80 then [acceleratorMsg] else []))) ∧
    (pressure = 30 → physics.dew = 0.85 →
      ((pressure < 45 ∧ physics.dew > 0.7) ∧
       (if pressure < 45 ∧ physics.dew > 0.7 then (80 : ℤ) - 25 else 80) = 55)) := by
  constructor
  · simp only [player_dna_eval]
    split_ifs <;> norm_num
  · intro h30 hdew
    have hc : pressure < 45 ∧ physics.dew > 0.7 := by
      subst h30
      rw [hdew]
      exact ⟨by norm_num, by norm_num⟩
    exact ⟨hc, by rw [if_pos hc]; norm_num⟩

/-- Witness for C1: pressure 30, spin skill 70, acceleration 90 under
dewy, spinning conditions give score 70 with choke and accelerator
alerts in order. -/
theorem C1_tactical_scorer_witness :
    player_dna_eval ("Anchor") 30 70 90 ⟨0.1475, 0.8, 0.85⟩ =
      (70, [chokeAlertMsg, acceleratorMsg]) := by
  have h := C1_tactical_scorer ("Anchor") 30 70 90 ⟨0.1475, 0.8, 0.85⟩
    (by norm_num) (by norm_num) (by norm_num) (by norm_num)
    (by norm_num) (by norm_num)
  rw [h.1]
  norm_num

/-- Claim C9: the returned score always lies in [0, 100] and the alert
list is always a subsequence of (choke, spin-trap, accelerator). -/
theorem C9_clamp_and_alert_order (role : String)
    (pressure spin_skill accel_rating : ℤ) (physics : PitchPhysics) :
    0 ≤ (player_dna_eval role pressure spin_skill accel_rating physics).1 ∧
    (player_dna_eval role pressure spin_skill accel_rating physics).1 ≤ 100 ∧
    (player_dna_eval role pressure spin_skill accel_rating physics).2.Sublist
      [chokeAlertMsg, spinTrapMsg, acceleratorMsg] := by
  simp only [player_dna_eval]
  split_ifs <;>
    refine ⟨le_max_left _ _, max_le (by norm_num) (min_le_left _ _), ?_⟩ <;>
    simp

/-- Claim C2: on a non-empty exact-match filter, the head-to-head stats
are row count, sum of runs_off_bat, count of present wicket types, count
of dot balls, count of boundaries (4 or 6), and strike rate
runs/balls x 100; the worked five-ball example gives 5/11/2 dots/2
boundaries/strike rate 220. -/
theorem C2_head_to_head (df : List Delivery) (batter bowler : String)
    (hne : df.filter (fun d => d.striker == batter && d.bowler == bowler) ≠ []) :
    analyze_matchup df batter bowler =
      (some ⟨(df.filter (fun d => d.striker == batter && d.bowler == bowler)).length,
        ((df.filter (fun d => d.striker == batter && d.bowler == bowler)).map
          Delivery.runs_off_bat).sum,
        (df.filter (fun d => d.striker == batter && d.bowler == bowler)).countP
          (fun d => d.wicket_type.isSome),
        (df.filter (fun d => d.striker == batter && d.bowler == bowler)).countP
          (fun d => d.runs_off_bat == 0),
        (df.filter (fun d => d.striker == batter && d.bowler == bowler)).countP
          (fun d => d.runs_off_bat == 4 || d.runs_off_bat == 6),
        ((((df.filter (fun d => d.striker == batter && d.bowler == bowler)).map
            Delivery.runs_off_bat).sum : ℚ) /
          (((df.filter (fun d => d.striker == batter && d.bowler == bowler)).length : ℚ))) *
          100⟩,
       h2hFoundMsg) ∧
    (analyze_matchup exDf ("A") ("B")).1 = some ⟨5, 11, 0, 2, 2, 220⟩ := by
  constructor
  · simp only [analyze_matchup]
    rw [if_neg (fun h => hne (by simpa using h))]
    simp [List.countP_eq_length_filter]
  · norm_num [analyze_matchup, exDf]

/-- Witness for C2 at the worked five-ball ledger. -/
theorem C2_head_to_head_witness :
    (analyze_matchup exDf ("A") ("B")).1 = some ⟨5, 11, 0, 2, 2, 220⟩ :=
  (C2_head_to_head exDf ("A") ("B") (by decide)).2

/-- Claim C3: the result carries no stats exactly when the filtered row
set is empty, in which case the explanatory not-found status is
returned; whenever stats are returned, balls_faced is positive, so the
strike-rate division is never performed on zero. -/
theorem C3_not_found (df : List Delivery) (batter bowler : String) :
    ((analyze_matchup df batter bowler).1 = none ↔
      df.filter (fun d => d.striker == batter && d.bowler == bowler) = []) ∧
    ((analyze_matchup df batter bowler).1 = none →
      (analyze_matchup df batter bowler).2 = h2hNotFoundMsg) ∧
    (∀ stats : MatchupStats, (analyze_matchup df batter bowler).1 = some stats →
      0 < stats.balls_faced) := by
  by_cases h : (df.filter (fun d => d.striker == batter && d.bowler == bowler)).isEmpty = true
  · have he : df.filter (fun d => d.striker == batter && d.bowler == bowler) = [] := by
      simpa using h
    refine ⟨?_, ?_, ?_⟩
    · simp [analyze_matchup, he]
    · simp [analyze_matchup, he]
    · intro stats hs
      simp [analyze_matchup, he] at hs
  · have hne : df.filter (fun d => d.striker == batter && d.bowler == bowler) ≠ [] := by
      simpa using h
    refine ⟨?_, ?_, ?_⟩
    · simp only [analyze_matchup]
      rw [if_neg h]
      simp [hne]
    · intro hcontra
      simp only [analyze_matchup] at hcontra
      rw [if_neg h] at hcontra
      simp at hcontra
    · intro stats hs
      simp only [analyze_matchup] at hs
      rw [if_neg h] at hs
      simp only at hs
      rw [← Option.some.inj hs]
      exact List.length_pos.mpr hne

/-- Witness for C3: the empty ledger yields the NotFound outcome. -/
theorem C3_not_found_witness :
    (analyze_matchup ([] : List Delivery) ("A") ("B")).1 = none :=
  (C3_not_found ([] : List Delivery) ("A") ("B")).1.mpr rfl

lemma ingest_foldl (l : List RawFile) :
    ∀ acc : List Delivery,
      l.foldl ingestStep acc = acc ++ (l.filter acceptFile).flatMap fileRows := by
  induction l with
  | nil => intro acc; simp
  | cons f tl ih =>
      intro acc
      rw [List.foldl_cons, List.filter_cons]
      by_cases hn : nameOk f.name = true
      · cases hp : f.parsed with
        | none =>
            have h1 : ingestStep acc f = acc := by simp [ingestStep, hn, hp]
            have h2 : acceptFile f = false := by simp [acceptFile, hp]
            rw [h1, h2]
            simp [ih]
        | some t =>
            by_cases hc : strikerCol ∈ t.columns ∧ bowlerCol ∈ t.columns
            · have h1 : ingestStep acc f = acc ++ t.rows := by
                simp [ingestStep, hn, hp, hc]
              have h2 : acceptFile f = true := by simp [acceptFile, hn, hp, hc]
              have h3 : fileRows f = t.rows := by simp [fileRows, hp]
              rw [h1, h2]
              simp [ih, h3, List.append_assoc]
            · have h1 : ingestStep acc f = acc := by simp [ingestStep, hn, hp, hc]
              have h2 : acceptFile f = false := by simp [acceptFile, hn, hp, hc]
              rw [h1, h2]
              simp [ih]
      · have h1 : ingestStep acc f = acc := by simp [ingestStep, hn]
        have h2 : acceptFile f = false := by simp [acceptFile, hn]
        rw [h1, h2]
        simp [ih]

/-- Claim C5: the normalizer's ledger is exactly the concatenated rows
of the accepted files; a file is accepted only if its name is not a
metadata/info/README name, it parses, and its schema has the striker and
bowler columns; and one well-formed file next to one file missing the
bowler column contributes only the well-formed file's rows. -/
theorem C5_normalizer (files : List RawFile) :
    (get_cleaned_data files =
      ((files.take 150).filter acceptFile).flatMap fileRows) ∧
    (∀ f : RawFile, acceptFile f = true →
      strEndsWith f.name csvSuffix = true ∧
      strEndsWith f.name infoSuffix = false ∧
      strContains f.name readmeTag = false ∧
      ∃ t : ParsedTable, f.parsed = some t ∧
        strikerCol ∈ t.columns ∧ bowlerCol ∈ t.columns) ∧
    (∀ (f g : RawFile) (u : ParsedTable),
      acceptFile f = true → g.parsed = some u → bowlerCol ∉ u.columns →
      get_cleaned_data [f, g] = fileRows f) := by
  refine ⟨?_, ?_, ?_⟩
  · unfold get_cleaned_data
    simpa using ingest_foldl (files.take 150) []
  · intro f hf
    cases hp : f.parsed with
    | none => exact absurd hf (by simp [acceptFile, hp])
    | some t =>
        simp [acceptFile, nameOk, hp] at hf
        obtain ⟨⟨⟨h1, h2⟩, h3⟩, h4, h5⟩ := hf
        exact ⟨h1, h2, h3, t, rfl, h4, h5⟩
  · intro f g u hf hg hu
    have hgacc : acceptFile g = false := by simp [acceptFile, hg, hu]
    unfold get_cleaned_data
    rw [show ([f, g].take 150) = [f, g] from rfl, ingest_foldl [f, g] []]
    simp [hf, hgacc]

/-- Witness for C5: the good file and the bowler-less file produce
exactly the good file's rows. -/
theorem C5_normalizer_witness :
    get_cleaned_data [exGoodFile, exBadFile] = exDf := by
  have h := (C5_normalizer [exGoodFile, exBadFile]).2.2 exGoodFile exBadFile
    ⟨[strikerCol], [⟨"X", "Y", 2, none, 1⟩]⟩ (by decide) rfl (by decide)
  rw [h]
  rfl

lemma middle_ne_powerplay : middleLabel ≠ powerplayLabel := by decide
lemma death_ne_powerplay : deathLabel ≠ powerplayLabel := by decide
lemma death_ne_middle : deathLabel ≠ middleLabel := by decide

lemma phase_sum_partition (l : List Delivery) :
    ((l.filter fun d => phase_of d.ball == some powerplayLabel).map
      Delivery.runs_off_bat).sum +
    ((l.filter fun d => phase_of d.ball == some middleLabel).map
      Delivery.runs_off_bat).sum +
    ((l.filter fun d => phase_of d.ball == some deathLabel).map
      Delivery.runs_off_bat).sum =
    ((l.filter inPhaseRange).map Delivery.runs_off_bat).sum := by
  induction l with
  | nil => rfl
  | cons d tl ih =>
      simp only [List.filter_cons]
      by_cases h1 : 0 < d.ball ∧ d.ball ≤ 6
      · have hpp : phase_of d.ball = some powerplayLabel := by
          simp only [phase_of]; rw [if_pos h1]
        have hin : inPhaseRange d = true :=
          decide_eq_true ⟨h1.1, by linarith [h1.2]⟩
        simp [hpp, beq_iff_eq, powerplay_ne_middle, powerplay_ne_death, hin]
        omega
      · by_cases h2 : 6 < d.ball ∧ d.ball ≤ 15
        · have hmid : phase_of d.ball = some middleLabel := by
            simp only [phase_of]; rw [if_neg h1, if_pos h2]
          have hin : inPhaseRange d = true :=
            decide_eq_true ⟨by linarith [h2.1], by linarith [h2.2]⟩
          simp [hmid, beq_iff_eq, middle_ne_powerplay, middle_ne_death, hin]
          omega
        · by_cases h3 : 15 < d.ball ∧ d.ball ≤ 20
          · have hd : phase_of d.ball = some deathLabel := by
              simp only [phase_of]; rw [if_neg h1, if_neg h2, if_pos h3]
            have hin : inPhaseRange d = true :=
              decide_eq_true ⟨by linarith [h3.1], h3.2⟩
            simp [hd, beq_iff_eq, death_ne_powerplay, death_ne_middle, hin]
            omega
          · have hnone : phase_of d.ball = none := by
              simp only [phase_of]; rw [if_neg h1, if_neg h2, if_neg h3]
            have hnin : inPhaseRange d = false := decide_eq_false (by
              rintro ⟨hb0, hb20⟩
              rcases le_or_lt d.ball 6 with h | h
              · exact h1 ⟨hb0, h⟩
              · rcases le_or_lt d.ball 15 with h' | h'
                · exact h2 ⟨h, h'⟩
                · exact h3 ⟨h', hb20⟩)
            simp [hnone, hnin]
            omega

/-- Counterexample to claim C4 as stated: the row at ball position 1/2
lies outside [1, 20], yet the binning does not exclude it — it lands in
the Powerplay bucket, and the per-phase total (3) differs from the sum
of runs over the rows whose position lies in [1, 20] (0). -/
theorem C4_phase_profile_counterexample :
    phaseProfile cexDf ("A") =
      [(powerplayLabel, 3), (middleLabel, 0), (deathLabel, 0)] ∧
    ¬((1 : ℚ) ≤ (1 : ℚ)/2 ∧ (1 : ℚ)/2 ≤ 20) ∧
    ((phaseProfile cexDf ("A")).map Prod.snd).sum ≠
      ((cexDf.filter (fun d => d.striker == ("A") &&
          decide (1 ≤ d.ball ∧ d.ball ≤ 20))).map Delivery.runs_off_bat).sum := by
  refine ⟨?_, by norm_num, ?_⟩
  · norm_num [phaseProfile, phase_of, cexDf, beq_iff_eq, List.filter_cons,
      List.filter_nil, powerplay_ne_middle, powerplay_ne_death]
  · norm_num [phaseProfile, phase_of, cexDf, beq_iff_eq, List.filter_cons,
      List.filter_nil, powerplay_ne_middle, powerplay_ne_death]

/-- Claim C4 as amended: the binning keys on the raw ball position with
left-open buckets \x7bPowerplay: (0,6], Middle: (6,15], Death: (15,20]\x7d,
rows outside (0, 20] are excluded, each in-range row falls in exactly
one bucket, the per-phase totals sum to the total runs over in-range
rows, and an empty phase is listed with aggregate 0, not absent. -/
theorem C4_phase_profile_amended (df : List Delivery) (batter : String) :
    (∀ b : ℚ,
      ((0 < b ∧ b ≤ 6) → phase_of b = some powerplayLabel) ∧
      ((6 < b ∧ b ≤ 15) → phase_of b = some middleLabel) ∧
      ((15 < b ∧ b ≤ 20) → phase_of b = some deathLabel) ∧
      ((b ≤ 0 ∨ 20 < b) → phase_of b = none)) ∧
    ((phaseProfile df batter).map Prod.fst =
      [powerplayLabel, middleLabel, deathLabel]) ∧
    (((phaseProfile df batter).map Prod.snd).sum =
      (((df.filter fun d => d.striker == batter).filter inPhaseRange).map
        Delivery.runs_off_bat).sum) ∧
    (∀ label ∈ [powerplayLabel, middleLabel, deathLabel],
      ((df.filter fun d => d.striker == batter).filter
        (fun d => phase_of d.ball == some label)) = [] →
      (label, 0) ∈ phaseProfile df batter) := by
  refine ⟨?_, ?_, ?_, ?_⟩
  · intro b
    refine ⟨fun h => ?_, fun h => ?_, fun h => ?_, fun h => ?_⟩
    · simp only [phase_of]; rw [if_pos h]
    · have c1 : ¬(0 < b ∧ b ≤ 6) := fun hc => by linarith [h.1, hc.2]
      simp only [phase_of]; rw [if_neg c1, if_pos h]
    · have c1 : ¬(0 < b ∧ b ≤ 6) := fun hc => by linarith [h.1, hc.2]
      have c2 : ¬(6 < b ∧ b ≤ 15) := fun hc => by linarith [h.1, hc.2]
      simp only [phase_of]; rw [if_neg c1, if_neg c2, if_pos h]
    · have c1 : ¬(0 < b ∧ b ≤ 6) := fun hc => by
        rcases h with h | h
        · linarith [hc.1]
        · linarith [hc.2]
      have c2 : ¬(6 < b ∧ b ≤ 15) := fun hc => by
        rcases h with h | h
        · linarith [hc.1]
        · linarith [hc.2]
      have c3 : ¬(15 < b ∧ b ≤ 20) := fun hc => by
        rcases h with h | h
        · linarith [hc.1]
        · linarith [hc.2]
      simp only [phase_of]; rw [if_neg c1, if_neg c2, if_neg c3]
  · rfl
  · have hpart := phase_sum_partition (df.filter fun d => d.striker == batter)
    simp only [phaseProfile, List.map_cons, List.map_nil, List.sum_cons,
      List.sum_nil]
    omega
  · intro label hlab hempty
    fin_cases hlab <;> simp [phaseProfile, hempty]

/-- Witness for C4 as amended, at a ledger with in-range deliveries at
ball 3 and 10 and an out-of-range one at 25: per-phase totals sum to the
in-range run total, 7. -/
theorem C4_phase_profile_witness :
    ((phaseProfile exPhaseDf ("A")).map Prod.snd).sum =
      (((exPhaseDf.filter fun d => d.striker == ("A")).filter
          inPhaseRange).map Delivery.runs_off_bat).sum ∧
    ((phaseProfile exPhaseDf ("A")).map Prod.snd).sum = 7 := by
  refine ⟨(C4_phase_profile_amended exPhaseDf ("A")).2.2.1, ?_⟩
  norm_num [phaseProfile, phase_of, exPhaseDf, beq_iff_eq,
    List.filter_cons, List.filter_nil, powerplay_ne_middle,
    powerplay_ne_death, middle_ne_powerplay, middle_ne_death,
    death_ne_powerplay, death_ne_middle, inPhaseRange]
